import Mathlib

/-!
Verification of the backup / replication / disaster-recovery coordination
subsystem of the LightRAG multi-graph service.

This file is a shallow embedding of the Python sources
`lightrag/backup/graph_backup.py`, `lightrag/replication/graph_replication.py`
and `lightrag/recovery/disaster_recovery.py`.  Conventions of the embedding:

* Timestamps (`datetime.utcnow()`) are natural numbers; every operation call
  receives the current time `now` as an explicit argument, and all `utcnow()`
  reads inside one operation are identified with that single instant.
* The filesystem is an association list from directory paths to directory
  contents (a list of relative-path / file-bytes pairs); `shutil.copytree`,
  `shutil.move` and `shutil.rmtree` become pure operations on it.
* SHA-256 directory hashing (`_calculate_dir_hash`: feed files in sorted
  relative-path order) is modelled collision-free: the hash of a directory is
  its list of (relative path, bytes) pairs sorted by path.
* Network I/O (aiohttp health probes and snapshot uploads) is modelled by an
  environment giving, per target id, the outcome the network would produce:
  an HTTP response, a timeout, or a transport exception.
* Python dictionaries become association lists; dictionary mutation of a
  value in place becomes a key-preserving in-place update.
* `raise` / `except` become explicit outcome values; `finally` blocks become
  code on every branch of the corresponding match.
-/

/-! ## Filesystem model -/

/-- Contents of a directory tree: (relative file path, file bytes) pairs. -/
abbrev DirData := List (String × List Nat)

/-- A filesystem: association list from directory paths to their contents. -/
abbrev FileSys := List (String × DirData)

/-- Look up the contents stored at path `p`. -/
def fsLookup (fs : FileSys) (p : String) : Option DirData :=
  (fs.find? (fun e => e.1 == p)).map (fun e => e.2)

/-- `Path.exists()` for the modelled filesystem. -/
def fsExists (fs : FileSys) (p : String) : Bool :=
  (fsLookup fs p).isSome

/-- Remove path `p` (`shutil.rmtree`). -/
def fsErase (fs : FileSys) (p : String) : FileSys :=
  fs.filter (fun e => !(e.1 == p))

/-- Write contents `d` at path `p`, replacing anything already there. -/
def fsSet (fs : FileSys) (p : String) (d : DirData) : FileSys :=
  (p, d) :: fsErase fs p

/-- Rename `src` to `dst` (`shutil.move`). -/
def fsMove (fs : FileSys) (src dst : String) : FileSys :=
  match fsLookup fs src with
  | none => fs
  | some d => fsSet (fsErase fs src) dst d

/-- `_calculate_dir_hash`: visit files in sorted order of relative path,
feeding the hasher the relative path and the file bytes.  SHA-256 is modelled
collision-free, so the hash value is the sorted (path, bytes) list itself. -/
def calcDirHash (d : DirData) : List (String × List Nat) :=
  d.insertionSort (fun a b => a.1 ≤ b.1)

/-! ## `graph_backup.py`: snapshots and per-graph backup stores -/

/-- `BackupStatus` enum. -/
inductive BackupStatus where
  | pending
  | in_progress
  | completed
  | failed
  | archived
  | restored
  deriving DecidableEq, Repr

/-- `BackupSnapshot` dataclass. -/
structure BackupSnapshot where
  backup_id : String
  graph_id : String
  timestamp : Nat
  checkpoint_path : String
  status : BackupStatus
  size_bytes : Nat
  data_hash : List (String × List Nat)
  metadata : List (String × String)
  error_message : Option String
  retention_until : Option Nat
  deriving DecidableEq, Repr

/-- `BackupSnapshot.is_expired`: true iff a retention date is set and the
current time is strictly past it. -/
def BackupSnapshot.is_expired (s : BackupSnapshot) (now : Nat) : Bool :=
  match s.retention_until with
  | none => false
  | some r => now > r

/-- `BackupSnapshot.is_valid`: completed, checkpoint path exists, not expired. -/
def BackupSnapshot.is_valid (s : BackupSnapshot) (fs : FileSys) (now : Nat) : Bool :=
  s.status == BackupStatus.completed
    && fsExists fs s.checkpoint_path
    && !(s.is_expired now)

/-- State of a `GraphBackup` instance: its snapshot catalog keyed by id. -/
structure GraphBackupState where
  graph_id : String
  storage_path : String
  retention_days : Nat
  snapshots : List (String × BackupSnapshot)
  deriving DecidableEq, Repr

/-- `GraphBackup.get_snapshot`. -/
def get_snapshot (st : GraphBackupState) (sid : String) : Option BackupSnapshot :=
  (st.snapshots.find? (fun e => e.1 == sid)).map (fun e => e.2)

/-- Outcome of `restore_snapshot`: normal return, or one of the raised errors. -/
inductive RestoreOutcome where
  | ok
  | errNotFound
  | errNotValid
  | errCopyFailed
  | errIntegrity
  deriving DecidableEq, Repr

/-- In-place update of the snapshot stored under `sid`. -/
def setSnapshot (st : GraphBackupState) (sid : String) (s : BackupSnapshot) :
    GraphBackupState :=
  { st with snapshots := st.snapshots.map (fun e => if e.1 == sid then (e.1, s) else e) }

/-- The move-aside step of `restore_snapshot`: an existing target directory
is renamed with a `_pre_restore` suffix before the copy. -/
def restoreStaging (fs : FileSys) (targetDir : String) : FileSys :=
  if fsExists fs targetDir then fsMove fs targetDir (targetDir ++ "_pre_restore") else fs

/-- `GraphBackup.restore_snapshot`: raises if the id is unknown or the
snapshot is not valid; moves an existing target directory aside under a
`_pre_restore` suffix; copies the checkpoint contents to the target;
recomputes the hash of the target and raises an integrity error on mismatch
(leaving the copied data in place); on success marks the snapshot restored. -/
def restore_snapshot (st : GraphBackupState) (fs : FileSys) (now : Nat)
    (sid targetDir : String) : RestoreOutcome × GraphBackupState × FileSys :=
  match get_snapshot st sid with
  | none => (RestoreOutcome.errNotFound, st, fs)
  | some snap =>
    if !(snap.is_valid fs now) then (RestoreOutcome.errNotValid, st, fs)
    else
      let fs1 := restoreStaging fs targetDir
      match fsLookup fs1 snap.checkpoint_path with
      | none => (RestoreOutcome.errCopyFailed, st, fs1)
      | some content =>
        let fs2 := fsSet fs1 targetDir content
        if !(calcDirHash content == snap.data_hash) then
          (RestoreOutcome.errIntegrity, st, fs2)
        else
          (RestoreOutcome.ok,
            setSnapshot st sid { snap with status := BackupStatus.restored }, fs2)

/-- `GraphBackup.delete_snapshot`: false if the id is unknown; otherwise
removes the checkpoint directory and the catalog entry. -/
def delete_snapshot (st : GraphBackupState) (fs : FileSys) (sid : String) :
    Bool × GraphBackupState × FileSys :=
  match get_snapshot st sid with
  | none => (false, st, fs)
  | some snap =>
    let fs' := if fsExists fs snap.checkpoint_path then fsErase fs snap.checkpoint_path else fs
    (true, { st with snapshots := st.snapshots.filter (fun e => !(e.1 == sid)) }, fs')

/-- The deletion loop of `cleanup_old_snapshots`: delete each listed id in
turn, counting the deletions that succeeded. -/
def deleteEach (st : GraphBackupState) (fs : FileSys) :
    List String → Nat × GraphBackupState × FileSys
  | [] => (0, st, fs)
  | sid :: rest =>
    let r := delete_snapshot st fs sid
    let r' := deleteEach r.2.1 r.2.2 rest
    ((if r.1 then 1 else 0) + r'.1, r'.2.1, r'.2.2)

/-- The ids collected under the lock by `cleanup_old_snapshots`. -/
def expiredIds (st : GraphBackupState) (now : Nat) : List String :=
  (st.snapshots.filter (fun e => e.2.is_expired now)).map (fun e => e.1)

/-- `GraphBackup.cleanup_old_snapshots`: collect the ids of expired snapshots,
delete each, return the number deleted. -/
def cleanup_old_snapshots (st : GraphBackupState) (fs : FileSys) (now : Nat) :
    Nat × GraphBackupState × FileSys :=
  deleteEach st fs (expiredIds st now)

/-! ## `graph_backup.py`: `BackupManager` -/

/-- State of the global `BackupManager`. -/
structure BackupManagerState where
  storage_path : String
  retention_days : Nat
  auto_cleanup_interval : Nat
  graph_backups : List (String × GraphBackupState)
  last_cleanup : Nat
  deriving DecidableEq, Repr

/-- The per-graph loop body of `cleanup_old_backups`: run
`cleanup_old_snapshots` on every registered store in order, collecting the
graph ids with a positive deletion count. -/
def cleanupEachStore (now : Nat) :
    List (String × GraphBackupState) → FileSys →
    List (String × Nat) × List (String × GraphBackupState) × FileSys
  | [], fs => ([], [], fs)
  | (gid, st) :: rest, fs =>
    let r := cleanup_old_snapshots st fs now
    let r' := cleanupEachStore now rest r.2.2
    ((if r.1 > 0 then [(gid, r.1)] else []) ++ r'.1, (gid, r.2.1) :: r'.2.1, r'.2.2)

/-- `BackupManager.cleanup_old_backups`: a no-op returning an empty map when
less than one full cleanup interval has elapsed since the previous run;
otherwise stamps the run time and sweeps every registered store. -/
def cleanup_old_backups (mst : BackupManagerState) (fs : FileSys) (now : Nat) :
    List (String × Nat) × BackupManagerState × FileSys :=
  if (now : Int) - (mst.last_cleanup : Int) < (mst.auto_cleanup_interval : Int) then
    ([], mst, fs)
  else
    let r := cleanupEachStore now mst.graph_backups fs
    (r.1, { mst with last_cleanup := now, graph_backups := r.2.1 }, r.2.2)

/-! ## `graph_replication.py`: targets, logs, replicator -/

/-- `ReplicationStatus` enum. -/
inductive ReplicationStatus where
  | pending
  | in_progress
  | completed
  | failed
  | validated
  deriving DecidableEq, Repr

/-- `TargetStatus` enum. -/
inductive TargetStatus where
  | healthy
  | unreachable
  | degraded
  | unknown
  deriving DecidableEq, Repr

/-- `ReplicationTarget` dataclass. -/
structure ReplicationTarget where
  target_id : String
  name : String
  base_url : String
  api_key : String
  enabled : Bool
  max_concurrent : Nat
  metadata : List (String × String)
  created_at : Nat
  last_health_check : Option Nat
  last_error : Option String
  deriving DecidableEq, Repr

/-- `ReplicationLog` dataclass. -/
structure ReplicationLog where
  operation_id : String
  target_id : String
  backup_id : String
  graph_id : String
  status : ReplicationStatus
  started_at : Nat
  completed_at : Option Nat
  data_hash : String
  error_message : Option String
  deriving DecidableEq, Repr

/-- What the network does when the health endpoint of a target is probed:
an HTTP response with some status code, a timeout
(`asyncio.TimeoutError`), or any other transport exception. -/
inductive ProbeResult where
  | resp (status : Nat)
  | timeout
  | exc (msg : String)
  deriving DecidableEq, Repr

/-- What the network does when a snapshot is uploaded to a target: an HTTP
response (status code, parsed `success` flag and `error` field of the JSON
body), or an exception (including the upload timeout). -/
inductive UploadResult where
  | resp (status : Nat) (ok : Bool) (err : Option String)
  | exc (msg : String)
  deriving DecidableEq, Repr

/-- The network / id-generation environment of one replication call: per
target id, the outcome of a health probe and of an upload, and the fresh
`uuid4` chosen for that target's log entry. -/
structure NetEnv where
  probe : String → ProbeResult
  upload : String → UploadResult
  freshOpId : String → String

/-- State of a `GraphReplicator`: target catalog keyed by target id, and the
append-only replication log list. -/
structure GraphReplicatorState where
  graph_id : String
  targets : List (String × ReplicationTarget)
  logs : List ReplicationLog
  deriving DecidableEq, Repr

/-- `GraphReplicator.get_target`. -/
def get_target (st : GraphReplicatorState) (tid : String) : Option ReplicationTarget :=
  (st.targets.find? (fun e => e.1 == tid)).map (fun e => e.2)

/-- In-place mutation of the target object stored under `tid`. -/
def setTarget (st : GraphReplicatorState) (tid : String) (t : ReplicationTarget) :
    GraphReplicatorState :=
  { st with targets := st.targets.map (fun e => if e.1 == tid then (e.1, t) else e) }

/-- `GraphReplicator.list_targets`. -/
def list_targets (st : GraphReplicatorState) (enabledOnly : Bool) :
    List ReplicationTarget :=
  let ts := st.targets.map (fun e => e.2)
  if enabledOnly then ts.filter (fun t => t.enabled) else ts

/-- `GraphReplicator.check_target_health`: `unknown` without touching the
network for an unknown or disabled target id; otherwise probe the health
endpoint: a 200 response is `healthy` (clearing the last error), a non-200
response is `degraded` (recording the status code), a timeout is `degraded`
(recording a timeout error), any other failure is `unreachable` (recording
its message).  The last-health-check timestamp is stamped inside the
response block, so only when a response was actually received.  The third
component reports whether a network call was made. -/
def check_target_health (env : NetEnv) (st : GraphReplicatorState) (now : Nat)
    (tid : String) : TargetStatus × GraphReplicatorState × Bool :=
  match get_target st tid with
  | none => (TargetStatus.unknown, st, false)
  | some t =>
    if !t.enabled then (TargetStatus.unknown, st, false)
    else
      match env.probe tid with
      | ProbeResult.resp status =>
        let t1 := { t with last_health_check := some now }
        if status == 200 then
          (TargetStatus.healthy, setTarget st tid { t1 with last_error := none }, true)
        else
          (TargetStatus.degraded,
            setTarget st tid
              { t1 with last_error := some ("Health check returned " ++ toString status) },
            true)
      | ProbeResult.timeout =>
        (TargetStatus.degraded,
          setTarget st tid { t with last_error := some "Health check timeout" }, true)
      | ProbeResult.exc msg =>
        (TargetStatus.unreachable,
          setTarget st tid { t with last_error := some msg }, true)

/-- Render an optional JSON `error` field the way a Python f-string does. -/
def optionErrStr : Option String → String
  | none => "None"
  | some e => e

/-- The boolean outcome `_replicate_to_target` produces for one target, as a
function of that target's own probe and upload outcomes alone: an
unreachable health probe aborts the branch, otherwise the upload must return
status 200 with `success = true`. -/
def replicate_result (pr : ProbeResult) (ur : UploadResult) : Bool :=
  match pr with
  | ProbeResult.exc _ => false
  | _ =>
    match ur with
    | UploadResult.resp status ok _ => status == 200 && ok
    | UploadResult.exc _ => false

/-- The log entry `_replicate_to_target` appends for one target (it appends
exactly one on every control path, via the `finally` block). -/
def replicate_log (env : NetEnv) (gid : String) (now : Nat)
    (t : ReplicationTarget) (backup_id data_hash : String) : ReplicationLog :=
  let base : ReplicationLog :=
    { operation_id := env.freshOpId t.target_id
      target_id := t.target_id
      backup_id := backup_id
      graph_id := gid
      status := ReplicationStatus.in_progress
      started_at := now
      completed_at := none
      data_hash := data_hash
      error_message := none }
  match env.probe t.target_id with
  | ProbeResult.exc _ =>
    { base with status := ReplicationStatus.failed
                error_message := some ("Target " ++ t.name ++ " is unreachable")
                completed_at := some now }
  | _ =>
    match env.upload t.target_id with
    | UploadResult.resp status ok err =>
      if !(status == 200) then
        { base with status := ReplicationStatus.failed
                    error_message := some ("Upload failed with status " ++ toString status)
                    completed_at := some now }
      else if !ok then
        { base with status := ReplicationStatus.failed
                    error_message := some ("Upload returned error: " ++ optionErrStr err)
                    completed_at := some now }
      else
        { base with status := ReplicationStatus.validated
                    completed_at := some now }
    | UploadResult.exc msg =>
      { base with status := ReplicationStatus.failed
                  error_message := some msg
                  completed_at := some now }

/-- `GraphReplicator._replicate_to_target`: open a log entry, re-check the
target's health (mutating the target's health fields), raise a connection
error if the target is unreachable, otherwise upload the snapshot and treat
a non-200 status or a `success = false` body as a failure; any exception is
caught and recorded in the log entry; the log entry is appended on every
path (`finally`). -/
def replicate_to_target (env : NetEnv) (st : GraphReplicatorState) (now : Nat)
    (t : ReplicationTarget) (backup_id : String) (_snapshot_file : List Nat)
    (data_hash : String) : Bool × GraphReplicatorState :=
  let log0 : ReplicationLog :=
    { operation_id := env.freshOpId t.target_id
      target_id := t.target_id
      backup_id := backup_id
      graph_id := st.graph_id
      status := ReplicationStatus.in_progress
      started_at := now
      completed_at := none
      data_hash := data_hash
      error_message := none }
  let health := check_target_health env st now t.target_id
  let st1 := health.2.1
  if health.1 == TargetStatus.unreachable then
    (false,
      { st1 with logs := st1.logs ++
          [{ log0 with status := ReplicationStatus.failed
                       error_message := some ("Target " ++ t.name ++ " is unreachable")
                       completed_at := some now }] })
  else
    match env.upload t.target_id with
    | UploadResult.resp status ok err =>
      if !(status == 200) then
        (false,
          { st1 with logs := st1.logs ++
              [{ log0 with status := ReplicationStatus.failed
                           error_message :=
                             some ("Upload failed with status " ++ toString status)
                           completed_at := some now }] })
      else if !ok then
        (false,
          { st1 with logs := st1.logs ++
              [{ log0 with status := ReplicationStatus.failed
                           error_message :=
                             some ("Upload returned error: " ++ optionErrStr err)
                           completed_at := some now }] })
      else
        (true,
          { st1 with logs := st1.logs ++
              [{ log0 with status := ReplicationStatus.validated
                           completed_at := some now }] })
    | UploadResult.exc msg =>
      (false,
        { st1 with logs := st1.logs ++
            [{ log0 with status := ReplicationStatus.failed
                         error_message := some msg
                         completed_at := some now }] })

/-- The fan-out loop of `replicate_snapshot` over the enabled targets
(`asyncio.gather`, linearised in target order). -/
def replicateEach (env : NetEnv) (now : Nat) (backup_id : String)
    (snapshot_file : List Nat) (data_hash : String) :
    List ReplicationTarget → GraphReplicatorState →
    List (String × Bool) × GraphReplicatorState
  | [], st => ([], st)
  | t :: rest, st =>
    let r := replicate_to_target env st now t backup_id snapshot_file data_hash
    let r' := replicateEach env now backup_id snapshot_file data_hash rest r.2
    ((t.target_id, r.1) :: r'.1, r'.2)

/-- `GraphReplicator.replicate_snapshot`: replicate to every enabled target,
returning the per-target success map. -/
def replicate_snapshot (env : NetEnv) (st : GraphReplicatorState) (now : Nat)
    (backup_id : String) (snapshot_file : List Nat) (data_hash : String) :
    List (String × Bool) × GraphReplicatorState :=
  replicateEach env now backup_id snapshot_file data_hash (list_targets st true) st

/-- `GraphReplicator.get_replication_logs`: the logs sorted newest-first by
start time (Python's stable `sorted` with `reverse=True`), truncated. -/
def get_replication_logs (st : GraphReplicatorState) (limit : Nat) :
    List ReplicationLog :=
  (st.logs.insertionSort (fun a b => b.started_at ≤ a.started_at)).take limit

/-- The dictionary returned by `get_replication_status`. -/
structure ReplicationStatusReport where
  graph_id : String
  total_targets : Nat
  enabled_targets : Nat
  recent_operations : Nat
  successful_operations : Nat
  failed_operations : Nat
  last_replication : Option Nat
  deriving DecidableEq, Repr

/-- `GraphReplicator.get_replication_status`: success / failure counts over
the 10 most recent log entries, counting `completed` entries as successes
and `failed` entries as failures. -/
def get_replication_status (st : GraphReplicatorState) : ReplicationStatusReport :=
  let logs := get_replication_logs st 10
  { graph_id := st.graph_id
    total_targets := st.targets.length
    enabled_targets := (st.targets.filter (fun e => e.2.enabled)).length
    recent_operations := logs.length
    successful_operations := (logs.filter (fun l => l.status == ReplicationStatus.completed)).length
    failed_operations := (logs.filter (fun l => l.status == ReplicationStatus.failed)).length
    last_replication := logs.head?.map (fun l => l.started_at) }

/-! ## `disaster_recovery.py`: recovery points, validation, failover -/

/-- `HealthStatus` enum. -/
inductive HealthStatus where
  | healthy
  | degraded
  | critical
  | offline
  | unknown
  deriving DecidableEq, Repr

/-- `ComponentHealth` dataclass. -/
structure ComponentHealth where
  component_id : String
  component_type : String
  status : HealthStatus
  message : String
  last_check : Nat
  deriving DecidableEq, Repr

/-- `RecoveryPoint` dataclass. -/
structure RecoveryPoint where
  checkpoint_id : String
  timestamp : Nat
  graphs : List String
  validated : Bool
  validation_timestamp : Option Nat
  description : String
  metadata : List (String × String)
  created_by : String
  deriving DecidableEq, Repr

/-- The pluggable liveness probe underlying `HealthValidator.validate_graph`
(the concrete check against the graph/storage subsystem is an external
collaborator; the body of the `try` block in the source is a stub).  For a
graph id it reports either success or the message of the exception the check
raised. -/
abbrev HealthProbe := String → Option String

/-- `HealthValidator.validate_graph`: a successful check yields a `healthy`
ComponentHealth; an exception is caught and converted to a `critical` one
with the exception message — never propagated. -/
def validate_graph (probe : HealthProbe) (gid : String) (now : Nat) : ComponentHealth :=
  match probe gid with
  | none =>
    { component_id := gid
      component_type := "graph"
      status := HealthStatus.healthy
      message := "Graph is healthy and accessible"
      last_check := now }
  | some e =>
    { component_id := gid
      component_type := "graph"
      status := HealthStatus.critical
      message := "Graph validation failed: " ++ e
      last_check := now }

/-- `HealthValidator.validate_all_graphs`: one ComponentHealth per requested
graph id, in order. -/
def validate_all_graphs (probe : HealthProbe) (gids : List String) (now : Nat) :
    List (String × ComponentHealth) :=
  gids.map (fun gid => (gid, validate_graph probe gid now))

/-- The `critical_graphs` list computed by the recovery manager. -/
def criticalGraphs (probe : HealthProbe) (gids : List String) (now : Nat) :
    List String :=
  ((validate_all_graphs probe gids now).filter
    (fun e => e.2.status == HealthStatus.critical)).map (fun e => e.1)

/-- State of the `DisasterRecoveryManager`: checkpoint catalog keyed by id,
and the failover-in-progress flag. -/
structure DRState where
  recovery_points : List (String × RecoveryPoint)
  failover_in_progress : Bool
  deriving DecidableEq, Repr

/-- `DisasterRecoveryManager.get_recovery_point`. -/
def get_recovery_point (st : DRState) (cid : String) : Option RecoveryPoint :=
  (st.recovery_points.find? (fun e => e.1 == cid)).map (fun e => e.2)

/-- Dictionary write `self._recovery_points[cid] = cp`: replace in place when
the key exists, append otherwise. -/
def storeRecoveryPoint (st : DRState) (cid : String) (cp : RecoveryPoint) : DRState :=
  if st.recovery_points.any (fun e => e.1 == cid) then
    { st with recovery_points :=
        st.recovery_points.map (fun e => if e.1 == cid then (e.1, cp) else e) }
  else
    { st with recovery_points := st.recovery_points ++ [(cid, cp)] }

/-- Outcome of `create_recovery_point`: the returned checkpoint, or the
`RuntimeError` raised when some graphs are critical. -/
inductive CreateRPOutcome where
  | ok (cp : RecoveryPoint)
  | errCritical (gids : List String)
  deriving DecidableEq, Repr

/-- `DisasterRecoveryManager.create_recovery_point`: build the checkpoint,
validate every named graph, raise (storing nothing) if any is critical,
otherwise mark the checkpoint validated, stamp the validation time, and
store it.  `cid` is the fresh `uuid4` chosen for the checkpoint. -/
def create_recovery_point (probe : HealthProbe) (st : DRState) (now : Nat)
    (cid : String) (gids : List String) (description : String)
    (metadata : List (String × String)) : CreateRPOutcome × DRState :=
  let cp0 : RecoveryPoint :=
    { checkpoint_id := cid
      timestamp := now
      graphs := gids
      validated := false
      validation_timestamp := none
      description := description
      metadata := metadata
      created_by := "system" }
  let crit := criticalGraphs probe gids now
  if !crit.isEmpty then
    (CreateRPOutcome.errCritical crit, st)
  else
    let cp := { cp0 with validated := true, validation_timestamp := some now }
    (CreateRPOutcome.ok cp, storeRecoveryPoint st cid cp)

/-- `DisasterRecoveryManager.validate_recovery_point`: false for an unknown
id; otherwise re-run health validation over the checkpoint's graphs, update
the stored `validated` flag and validation timestamp, and report whether no
graph is critical. -/
def validate_recovery_point (probe : HealthProbe) (st : DRState) (now : Nat)
    (cid : String) : Bool × DRState :=
  match get_recovery_point st cid with
  | none => (false, st)
  | some cp =>
    let isValid := (criticalGraphs probe cp.graphs now).isEmpty
    let cp' := { cp with validated := isValid, validation_timestamp := some now }
    (isValid,
      { st with recovery_points :=
          st.recovery_points.map (fun e => if e.1 == cid then (e.1, cp') else e) })

/-- `DisasterRecoveryManager.initiate_failover`: reject immediately (no state
change) when a failover is already in progress or the checkpoint id is
unknown; otherwise set the in-progress flag, re-validate the checkpoint,
abort if it is no longer valid, otherwise run the failover action — which
may raise (`failover_raises`) — and in every one of those cases clear the
in-progress flag in the `finally` block. -/
def initiate_failover (probe : HealthProbe) (st : DRState) (now : Nat)
    (cid : String) (failover_raises : Bool) : Bool × DRState :=
  if st.failover_in_progress then (false, st)
  else
    match get_recovery_point st cid with
    | none => (false, st)
    | some _ =>
      let st1 : DRState := { st with failover_in_progress := true }
      let v := validate_recovery_point probe st1 now cid
      let result : Bool :=
        if !v.1 then false
        else if failover_raises then false
        else true
      (result, { v.2 with failover_in_progress := false })

/-! ## Association-list helper lemmas -/

lemma assoc_find?_isSome_of_mem {β : Type} {l : List (String × β)} {e : String × β}
    (he : e ∈ l) : (l.find? (fun x => x.1 == e.1)).isSome := by
  rw [List.find?_isSome]
  exact ⟨e, he, by simp⟩

lemma assoc_find?_of_mem_nodup {β : Type} {l : List (String × β)} {e : String × β}
    (hnd : (l.map Prod.fst).Nodup) (he : e ∈ l) :
    l.find? (fun x => x.1 == e.1) = some e := by
  induction l with
  | nil => cases he
  | cons a l ih =>
    rcases List.mem_cons.mp he with rfl | hmem
    · simp [List.find?_cons]
    · have hne : a.1 ≠ e.1 := by
        intro heq
        have : e.1 ∈ l.map Prod.fst := List.mem_map_of_mem Prod.fst hmem
        rw [← heq] at this
        exact (List.nodup_cons.mp (by simpa using hnd)).1 this
      have : (a.1 == e.1) = false := by simpa using hne
      rw [List.find?_cons, this]
      exact ih (List.nodup_cons.mp (by simpa using hnd)).2 hmem

lemma assoc_find?_update_self {β : Type} (l : List (String × β)) (k : String) (v : β)
    (h : (l.find? (fun x => x.1 == k)).isSome) :
    (l.map (fun x => if x.1 == k then (x.1, v) else x)).find? (fun x => x.1 == k) =
      some (k, v) := by
  induction l with
  | nil => simp [List.find?] at h
  | cons a l ih =>
    obtain ⟨a1, a2⟩ := a
    by_cases hk : a1 = k
    · subst hk
      simp only [List.map_cons, beq_self_eq_true, if_true]
      exact List.find?_cons_of_pos _ (by simp)
    · have hcond : ¬ (((a1, a2).1 == k) = true) := by simp [hk]
      rw [List.find?_cons_of_neg _ (by simpa using hcond)] at h
      simp only [List.map_cons, if_neg hcond]
      rw [List.find?_cons_of_neg _ (by simpa using hcond)]
      exact ih h

lemma assoc_find?_update_ne {β : Type} (l : List (String × β)) (k k' : String) (v : β)
    (h : k' ≠ k) :
    (l.map (fun x => if x.1 == k then (x.1, v) else x)).find? (fun x => x.1 == k') =
      l.find? (fun x => x.1 == k') := by
  induction l with
  | nil => simp
  | cons a l ih =>
    obtain ⟨a1, a2⟩ := a
    by_cases hk : a1 = k
    · have hcond : (((a1, a2).1 == k) = true) := by simp [hk]
      simp only [List.map_cons, if_pos hcond]
      have hne : a1 ≠ k' := fun hh => h (hh ▸ hk)
      rw [List.find?_cons_of_neg _ (by simp [hne]), List.find?_cons_of_neg _ (by simp [hne])]
      exact ih
    · have hcond : ¬ (((a1, a2).1 == k) = true) := by simp [hk]
      simp only [List.map_cons, if_neg hcond]
      by_cases hk' : a1 = k'
      · rw [List.find?_cons_of_pos _ (by simp [hk']), List.find?_cons_of_pos _ (by simp [hk'])]
      · rw [List.find?_cons_of_neg _ (by simp [hk']), List.find?_cons_of_neg _ (by simp [hk'])]
        exact ih

/-! ## Lemmas about the backup store -/

lemma fsLookup_fsSet_self (fs : FileSys) (p : String) (d : DirData) :
    fsLookup (fsSet fs p d) p = some d := by
  unfold fsLookup fsSet
  rw [List.find?_cons_of_pos _ (by simp)]
  rfl

lemma get_snapshot_setSnapshot_self (st : GraphBackupState) (sid : String)
    (s snap : BackupSnapshot) (h : get_snapshot st sid = some snap) :
    get_snapshot (setSnapshot st sid s) sid = some s := by
  have hs : (st.snapshots.find? (fun x => x.1 == sid)).isSome := by
    unfold get_snapshot at h
    cases hfind : st.snapshots.find? (fun x => x.1 == sid) <;> simp [hfind] at h ⊢
  unfold get_snapshot setSnapshot
  rw [assoc_find?_update_self _ _ _ hs]
  rfl

/-- C1: `restore_snapshot` raises if the id is unknown, raises if the
snapshot is not currently valid, raises an integrity error — leaving the
copied data at the target, not rolled back — whenever the recomputed hash of
the target directory differs from the snapshot's stored `data_hash`, and
when it returns successfully the recomputed hash of the target directory
equals the stored hash. -/
theorem C1_restore_integrity (st : GraphBackupState) (fs : FileSys) (now : Nat)
    (sid targetDir : String) :
    (get_snapshot st sid = none →
      restore_snapshot st fs now sid targetDir = (RestoreOutcome.errNotFound, st, fs)) ∧
    (∀ snap, get_snapshot st sid = some snap → snap.is_valid fs now = false →
      restore_snapshot st fs now sid targetDir = (RestoreOutcome.errNotValid, st, fs)) ∧
    (∀ snap content, get_snapshot st sid = some snap → snap.is_valid fs now = true →
      fsLookup (restoreStaging fs targetDir) snap.checkpoint_path = some content →
      calcDirHash content ≠ snap.data_hash →
      restore_snapshot st fs now sid targetDir =
        (RestoreOutcome.errIntegrity, st,
          fsSet (restoreStaging fs targetDir) targetDir content) ∧
      fsLookup (fsSet (restoreStaging fs targetDir) targetDir content) targetDir =
        some content) ∧
    ((restore_snapshot st fs now sid targetDir).1 = RestoreOutcome.ok →
      ∃ snap content, get_snapshot st sid = some snap ∧
        fsLookup (restore_snapshot st fs now sid targetDir).2.2 targetDir = some content ∧
        calcDirHash content = snap.data_hash) := by
  refine ⟨?_, ?_, ?_, ?_⟩
  · intro h
    simp [restore_snapshot, h]
  · intro snap h hv
    simp [restore_snapshot, h, hv]
  · intro snap content h hv hl hne
    have hb : (calcDirHash content == snap.data_hash) = false := by simpa using hne
    refine ⟨?_, fsLookup_fsSet_self _ _ _⟩
    simp [restore_snapshot, h, hv, hl, hb]
  · intro hok
    cases hg : get_snapshot st sid with
    | none => simp [restore_snapshot, hg] at hok
    | some snap =>
      cases hval : snap.is_valid fs now with
      | false => simp [restore_snapshot, hg, hval] at hok
      | true =>
        cases hl : fsLookup (restoreStaging fs targetDir) snap.checkpoint_path with
        | none => simp [restore_snapshot, hg, hval, hl] at hok
        | some content =>
          cases hh : calcDirHash content == snap.data_hash with
          | false => simp [restore_snapshot, hg, hval, hl, hh] at hok
          | true =>
            refine ⟨snap, content, rfl, ?_, by simpa using hh⟩
            simp [restore_snapshot, hg, hval, hl, hh]
            exact fsLookup_fsSet_self _ _ _

/-- Concrete snapshot for exercising `restore_snapshot`. -/
def c1Snap : BackupSnapshot :=
  { backup_id := "s1", graph_id := "g", timestamp := 0, checkpoint_path := "cp"
    status := BackupStatus.completed, size_bytes := 1, data_hash := [("f", [1])]
    metadata := [], error_message := none, retention_until := some 100 }

/-- Concrete one-snapshot store for exercising `restore_snapshot`. -/
def c1St : GraphBackupState :=
  { graph_id := "g", storage_path := "root", retention_days := 30
    snapshots := [("s1", c1Snap)] }

/-- A filesystem whose checkpoint contents do not match the stored hash. -/
def c1FsBad : FileSys := [("cp", [("f", [2])])]

/-- A filesystem whose checkpoint contents match the stored hash. -/
def c1FsGood : FileSys := [("cp", [("f", [1])])]

/-- Witness for C1 at concrete inputs: unknown id, expired (invalid)
snapshot, hash mismatch with the copied data left at the target, and a
successful restore with matching hash. -/
theorem C1_restore_integrity_witness :
    restore_snapshot c1St c1FsBad 5 "s0" "t" = (RestoreOutcome.errNotFound, c1St, c1FsBad) ∧
    restore_snapshot c1St c1FsBad 200 "s1" "t" = (RestoreOutcome.errNotValid, c1St, c1FsBad) ∧
    (restore_snapshot c1St c1FsBad 5 "s1" "t" =
        (RestoreOutcome.errIntegrity, c1St,
          fsSet (restoreStaging c1FsBad "t") "t" [("f", [2])]) ∧
      fsLookup (fsSet (restoreStaging c1FsBad "t") "t" [("f", [2])]) "t" =
        some [("f", [2])]) ∧
    (∃ snap content, get_snapshot c1St "s1" = some snap ∧
      fsLookup (restore_snapshot c1St c1FsGood 5 "s1" "t").2.2 "t" = some content ∧
      calcDirHash content = snap.data_hash) := by
  refine ⟨?_, ?_, ?_, ?_⟩
  · exact (C1_restore_integrity c1St c1FsBad 5 "s0" "t").1 (by decide)
  · exact (C1_restore_integrity c1St c1FsBad 200 "s1" "t").2.1 c1Snap (by decide) (by decide)
  · exact (C1_restore_integrity c1St c1FsBad 5 "s1" "t").2.2.1 c1Snap [("f", [2])]
      (by decide) (by decide) (by decide) (by decide)
  · exact (C1_restore_integrity c1St c1FsGood 5 "s1" "t").2.2.2 (by decide)

/-- C9: a successful `restore_snapshot` sets the snapshot's status to
`restored`, which makes `is_valid` false (validity requires `completed`),
so a second restore of the same id always raises the not-valid error. -/
theorem C9_restore_at_most_once (st : GraphBackupState) (fs : FileSys) (now : Nat)
    (sid targetDir : String) (st' : GraphBackupState) (fs' : FileSys)
    (h : restore_snapshot st fs now sid targetDir = (RestoreOutcome.ok, st', fs')) :
    (∃ snap', get_snapshot st' sid = some snap' ∧
      snap'.status = BackupStatus.restored ∧
      ∀ fs2 now2, snap'.is_valid fs2 now2 = false) ∧
    (∀ fs2 now2 targetDir2,
      (restore_snapshot st' fs2 now2 sid targetDir2).1 = RestoreOutcome.errNotValid) := by
  cases hg : get_snapshot st sid with
  | none => simp [restore_snapshot, hg] at h
  | some snap =>
    cases hval : snap.is_valid fs now with
    | false => simp [restore_snapshot, hg, hval] at h
    | true =>
      cases hl : fsLookup (restoreStaging fs targetDir) snap.checkpoint_path with
      | none => simp [restore_snapshot, hg, hval, hl] at h
      | some content =>
        cases hh : calcDirHash content == snap.data_hash with
        | false => simp [restore_snapshot, hg, hval, hl, hh] at h
        | true =>
          simp only [restore_snapshot, hg, hval, hl, hh] at h
          simp only [Bool.not_true, Bool.false_eq_true, if_false, Bool.not_false, if_true,
            Prod.mk.injEq] at h
          obtain ⟨-, hst, -⟩ := h
          subst hst
          have hget' :
              get_snapshot (setSnapshot st sid { snap with status := BackupStatus.restored }) sid
                = some { snap with status := BackupStatus.restored } :=
            get_snapshot_setSnapshot_self _ _ _ snap hg
          have hinvalid : ∀ fs2 now2,
              ({ snap with status := BackupStatus.restored } : BackupSnapshot).is_valid fs2 now2
                = false := by
            intro fs2 now2
            simp [BackupSnapshot.is_valid]
          refine ⟨⟨_, hget', rfl, hinvalid⟩, ?_⟩
          intro fs2 now2 targetDir2
          simp [restore_snapshot, hget', hinvalid fs2 now2]

/-- Concrete one-snapshot store for exercising the double restore. -/
def c9St : GraphBackupState :=
  { graph_id := "g", storage_path := "root", retention_days := 30
    snapshots :=
      [("s1", { backup_id := "s1", graph_id := "g", timestamp := 0
                checkpoint_path := "cp", status := BackupStatus.completed
                size_bytes := 1, data_hash := [("f", [1])], metadata := []
                error_message := none, retention_until := some 100 })] }

/-- A filesystem whose checkpoint contents match the stored hash. -/
def c9Fs : FileSys := [("cp", [("f", [1])])]

/-- Witness for C9: after a successful concrete restore, restoring the same
id again raises the not-valid error. -/
theorem C9_restore_at_most_once_witness :
    (restore_snapshot (restore_snapshot c9St c9Fs 5 "s1" "t").2.1
        c9Fs 6 "s1" "u").1 = RestoreOutcome.errNotValid := by
  have h := C9_restore_at_most_once c9St c9Fs 5 "s1" "t"
      (restore_snapshot c9St c9Fs 5 "s1" "t").2.1
      (restore_snapshot c9St c9Fs 5 "s1" "t").2.2 (by rfl)
  exact h.2 c9Fs 6 "u"

lemma get_snapshot_isSome_of_mem (st : GraphBackupState) (sid : String)
    (h : sid ∈ st.snapshots.map Prod.fst) : ∃ snap, get_snapshot st sid = some snap := by
  obtain ⟨e, he, rfl⟩ := List.mem_map.mp h
  have hsome := assoc_find?_isSome_of_mem he
  unfold get_snapshot
  cases hf : st.snapshots.find? (fun x => x.1 == e.1) with
  | none => rw [hf] at hsome; simp at hsome
  | some e' => exact ⟨e'.2, rfl⟩

lemma deleteEach_spec : ∀ (ids : List String) (st : GraphBackupState) (fs : FileSys),
    (st.snapshots.map Prod.fst).Nodup → ids.Nodup →
    (∀ i ∈ ids, i ∈ st.snapshots.map Prod.fst) →
    (deleteEach st fs ids).1 = ids.length ∧
    (deleteEach st fs ids).2.1 =
      { st with snapshots := st.snapshots.filter (fun e => !(ids.contains e.1)) }
  | [], st, fs, _, _, _ => by
    refine ⟨rfl, ?_⟩
    simp [deleteEach]
  | sid :: rest, st, fs, hnd, hids, hmem => by
    have hmem0 : sid ∈ st.snapshots.map Prod.fst := hmem sid (List.mem_cons_self _ _)
    obtain ⟨snap, hsnap⟩ := get_snapshot_isSome_of_mem st sid hmem0
    have hdel1 : (delete_snapshot st fs sid).1 = true := by simp [delete_snapshot, hsnap]
    have hdel2 : (delete_snapshot st fs sid).2.1 =
        { st with snapshots := st.snapshots.filter (fun e => !(e.1 == sid)) } := by
      simp [delete_snapshot, hsnap]
    have hsub : ((st.snapshots.filter (fun e => !(e.1 == sid))).map Prod.fst).Sublist
        (st.snapshots.map Prod.fst) := (List.filter_sublist _).map Prod.fst
    have hnd' : (((delete_snapshot st fs sid).2.1).snapshots.map Prod.fst).Nodup := by
      rw [hdel2]; exact hnd.sublist hsub
    have hmem' : ∀ i ∈ rest, i ∈ ((delete_snapshot st fs sid).2.1).snapshots.map Prod.fst := by
      intro i hi
      rw [hdel2]
      obtain ⟨e, he, rfl⟩ := List.mem_map.mp (hmem i (List.mem_cons_of_mem _ hi))
      refine List.mem_map.mpr ⟨e, List.mem_filter.mpr ⟨he, ?_⟩, rfl⟩
      have hne : e.1 ≠ sid := fun hq => (List.nodup_cons.mp hids).1 (hq ▸ hi)
      simpa using hne
    obtain ⟨ihc, ihs⟩ := deleteEach_spec rest (delete_snapshot st fs sid).2.1
      (delete_snapshot st fs sid).2.2 hnd' (List.nodup_cons.mp hids).2 hmem'
    refine ⟨?_, ?_⟩
    · simp only [deleteEach]
      rw [hdel1, ihc]
      simp [Nat.add_comm]
    · simp only [deleteEach]
      rw [ihs, hdel2]
      have hcomb : (st.snapshots.filter (fun e => !(e.1 == sid))).filter
          (fun e => !(rest.contains e.1)) =
          st.snapshots.filter (fun e => !((sid :: rest).contains e.1)) := by
        rw [List.filter_filter]
        apply List.filter_congr
        intro x _
        rw [List.contains_cons, Bool.not_or, Bool.and_comm]
      simp only [← hcomb]

lemma cleanup_old_snapshots_spec (st : GraphBackupState) (fs : FileSys) (now : Nat)
    (hnd : (st.snapshots.map Prod.fst).Nodup) :
    (cleanup_old_snapshots st fs now).1 =
      (st.snapshots.filter (fun e => e.2.is_expired now)).length ∧
    (cleanup_old_snapshots st fs now).2.1 =
      { st with snapshots := st.snapshots.filter (fun e => !(e.2.is_expired now)) } := by
  have hsubkeys : (expiredIds st now).Sublist (st.snapshots.map Prod.fst) := by
    unfold expiredIds
    exact (List.filter_sublist _).map Prod.fst
  have hids : (expiredIds st now).Nodup := hnd.sublist hsubkeys
  have hmem : ∀ i ∈ expiredIds st now, i ∈ st.snapshots.map Prod.fst :=
    fun i hi => hsubkeys.mem hi
  obtain ⟨hc, hs⟩ := deleteEach_spec (expiredIds st now) st fs hnd hids hmem
  have hpt : ∀ x ∈ st.snapshots,
      ((expiredIds st now).contains x.1) = x.2.is_expired now := by
    intro x hx
    cases hexp : x.2.is_expired now with
    | true =>
      have hmm : x.1 ∈ expiredIds st now :=
        List.mem_map.mpr ⟨x, List.mem_filter.mpr ⟨hx, hexp⟩, rfl⟩
      simp [hmm]
    | false =>
      cases hc2 : (expiredIds st now).contains x.1 with
      | false => rfl
      | true =>
        exfalso
        have hmm : x.1 ∈ expiredIds st now := by simpa using hc2
        obtain ⟨y, hy, hyx⟩ := List.mem_map.mp hmm
        have hyy := List.mem_filter.mp hy
        have hxy : y = x := List.inj_on_of_nodup_map hnd hyy.1 hx hyx
        rw [hxy] at hyy
        rw [hyy.2] at hexp
        cases hexp
  refine ⟨?_, ?_⟩
  · show (deleteEach st fs (expiredIds st now)).1 = _
    rw [hc]
    unfold expiredIds
    exact List.length_map _ _
  · show (deleteEach st fs (expiredIds st now)).2.1 = _
    rw [hs]
    have : st.snapshots.filter (fun e => !((expiredIds st now).contains e.1)) =
        st.snapshots.filter (fun e => !(e.2.is_expired now)) := by
      apply List.filter_congr
      intro x hx
      rw [hpt x hx]
    rw [this]

/-- C2: `is_expired` holds iff a retention date is set and the current time
is strictly past it (the boundary `retention_until = now` is not expired,
`retention_until = None` never expires), and `cleanup_old_snapshots`
deletes exactly the expired snapshots — keeping every snapshot whose
retention date has not strictly passed, with no additional validity
requirement — returning the number deleted. -/
theorem C2_retention_cleanup (st : GraphBackupState) (fs : FileSys) (now : Nat)
    (hnd : (st.snapshots.map Prod.fst).Nodup) :
    (∀ s : BackupSnapshot,
      s.is_expired now = true ↔ ∃ r, s.retention_until = some r ∧ r < now) ∧
    (cleanup_old_snapshots st fs now).2.1.snapshots =
      st.snapshots.filter (fun e => !(e.2.is_expired now)) ∧
    (cleanup_old_snapshots st fs now).1 =
      (st.snapshots.filter (fun e => e.2.is_expired now)).length := by
  obtain ⟨hc, hs⟩ := cleanup_old_snapshots_spec st fs now hnd
  refine ⟨?_, by rw [hs], hc⟩
  intro s
  unfold BackupSnapshot.is_expired
  cases hr : s.retention_until with
  | none => simp
  | some r => simp [Nat.lt_iff_add_one_le]

/-- Concrete store for exercising `cleanup_old_snapshots`: an expired
snapshot that is not even valid (status failed), a snapshot whose retention
is exactly `now`, and a snapshot with no retention date. -/
def c2St : GraphBackupState :=
  { graph_id := "g", storage_path := "root", retention_days := 30
    snapshots :=
      [("old", { backup_id := "old", graph_id := "g", timestamp := 0
                 checkpoint_path := "p1", status := BackupStatus.failed
                 size_bytes := 0, data_hash := [], metadata := []
                 error_message := some "boom", retention_until := some 5 }),
       ("edge", { backup_id := "edge", graph_id := "g", timestamp := 1
                  checkpoint_path := "p2", status := BackupStatus.completed
                  size_bytes := 0, data_hash := [], metadata := []
                  error_message := none, retention_until := some 10 }),
       ("keep", { backup_id := "keep", graph_id := "g", timestamp := 2
                  checkpoint_path := "p3", status := BackupStatus.completed
                  size_bytes := 0, data_hash := [], metadata := []
                  error_message := none, retention_until := none })] }

/-- Witness for C2 at time 10: only the snapshot with retention 5 is
deleted (despite being invalid), the boundary snapshot with retention
exactly 10 and the snapshot without retention are kept, and the count is 1. -/
theorem C2_retention_cleanup_witness :
    (cleanup_old_snapshots c2St [] 10).2.1.snapshots.map Prod.fst = ["edge", "keep"] ∧
    (cleanup_old_snapshots c2St [] 10).1 = 1 := by
  have h := C2_retention_cleanup c2St [] 10 (by decide)
  refine ⟨?_, ?_⟩
  · rw [h.2.1]
    decide
  · rw [h.2.2]
    decide

lemma cleanupEachStore_spec :
    ∀ (stores : List (String × GraphBackupState)) (fs : FileSys) (now : Nat),
    (∀ e ∈ stores, (e.2.snapshots.map Prod.fst).Nodup) →
    (cleanupEachStore now stores fs).1 =
      (stores.map (fun e =>
        (e.1, (e.2.snapshots.filter (fun s => s.2.is_expired now)).length))).filter
        (fun q => decide (q.2 > 0)) ∧
    (cleanupEachStore now stores fs).2.1 =
      stores.map (fun e =>
        (e.1, { e.2 with snapshots := e.2.snapshots.filter (fun s => !(s.2.is_expired now)) }))
  | [], fs, now, _ => ⟨rfl, rfl⟩
  | (gid, st) :: rest, fs, now, h => by
    obtain ⟨hc, hs⟩ := cleanup_old_snapshots_spec st fs now (h (gid, st) (by simp))
    obtain ⟨ihc, ihs⟩ := cleanupEachStore_spec rest (cleanup_old_snapshots st fs now).2.2 now
      (fun e he => h e (List.mem_cons_of_mem _ he))
    refine ⟨?_, ?_⟩
    · simp only [cleanupEachStore]
      rw [hc, ihc]
      simp only [List.map_cons, List.filter_cons]
      by_cases hpos : (st.snapshots.filter (fun s => s.2.is_expired now)).length > 0
      · simp [hpos]
      · simp [hpos]
    · simp only [cleanupEachStore]
      rw [hs, ihs]
      simp [List.map_cons]

/-- C8: `cleanup_old_backups` run before one full cleanup interval has
elapsed since the previous run returns an empty map, without raising and
without touching any store; once the interval has elapsed it stamps the run
time, runs `cleanup_old_snapshots` on every registered store, and returns
the per-graph deletion counts (the graphs with a positive count). -/
theorem C8_rate_limited_cleanup (mst : BackupManagerState) (fs : FileSys) (now : Nat)
    (hnd : ∀ e ∈ mst.graph_backups, (e.2.snapshots.map Prod.fst).Nodup) :
    ((now : Int) - (mst.last_cleanup : Int) < (mst.auto_cleanup_interval : Int) →
      cleanup_old_backups mst fs now = ([], mst, fs)) ∧
    (¬ ((now : Int) - (mst.last_cleanup : Int) < (mst.auto_cleanup_interval : Int)) →
      (cleanup_old_backups mst fs now).2.1.last_cleanup = now ∧
      (cleanup_old_backups mst fs now).2.1.graph_backups =
        mst.graph_backups.map (fun e =>
          (e.1, { e.2 with
                    snapshots := e.2.snapshots.filter (fun s => !(s.2.is_expired now)) })) ∧
      (cleanup_old_backups mst fs now).1 =
        (mst.graph_backups.map (fun e =>
          (e.1, (e.2.snapshots.filter (fun s => s.2.is_expired now)).length))).filter
          (fun q => decide (q.2 > 0))) := by
  constructor
  · intro h
    simp [cleanup_old_backups, h]
  · intro h
    obtain ⟨hr, hst⟩ := cleanupEachStore_spec mst.graph_backups fs now hnd
    simp only [cleanup_old_backups, if_neg h]
    exact ⟨by trivial, by rw [hst], by rw [hr]⟩

/-- Concrete backup manager for exercising `cleanup_old_backups`: one store
holding one snapshot that expired at time 5; last cleanup ran at time 100,
interval 24. -/
def c8Mgr : BackupManagerState :=
  { storage_path := "root", retention_days := 30, auto_cleanup_interval := 24
    graph_backups :=
      [("g1", { graph_id := "g1", storage_path := "root", retention_days := 30
                snapshots :=
                  [("old", { backup_id := "old", graph_id := "g1", timestamp := 0
                             checkpoint_path := "p1", status := BackupStatus.completed
                             size_bytes := 0, data_hash := [], metadata := []
                             error_message := none, retention_until := some 5 })] })]
    last_cleanup := 100 }

/-- Witness for C8: at time 110 (only 10 of 24 elapsed) the call is a no-op with
an empty result; at time 200 the interval has elapsed, the expired snapshot
is swept and the result maps g1 to 1. -/
theorem C8_rate_limited_cleanup_witness :
    cleanup_old_backups c8Mgr [] 110 = ([], c8Mgr, []) ∧
    (cleanup_old_backups c8Mgr [] 200).1 = [("g1", 1)] ∧
    (cleanup_old_backups c8Mgr [] 200).2.1.last_cleanup = 200 := by
  have h1 := (C8_rate_limited_cleanup c8Mgr [] 110 (by decide)).1 (by decide)
  have h2 := (C8_rate_limited_cleanup c8Mgr [] 200 (by decide)).2 (by decide)
  refine ⟨h1, ?_, h2.1⟩
  rw [h2.2.2]
  decide

/-! ## Lemmas about the replicator -/

lemma get_target_isSome_of_some (st : GraphReplicatorState) (tid : String)
    (t : ReplicationTarget) (h : get_target st tid = some t) :
    (st.targets.find? (fun x => x.1 == tid)).isSome := by
  unfold get_target at h
  cases hf : st.targets.find? (fun x => x.1 == tid) <;> simp [hf] at h ⊢

lemma get_target_setTarget_self (st : GraphReplicatorState) (tid : String)
    (t t' : ReplicationTarget) (h : get_target st tid = some t) :
    get_target (setTarget st tid t') tid = some t' := by
  unfold get_target setTarget
  rw [assoc_find?_update_self _ _ _ (get_target_isSome_of_some st tid t h)]
  rfl

lemma get_target_setTarget_ne (st : GraphReplicatorState) (tid tid' : String)
    (t' : ReplicationTarget) (h : tid' ≠ tid) :
    get_target (setTarget st tid t') tid' = get_target st tid' := by
  unfold get_target setTarget
  rw [assoc_find?_update_ne _ _ _ _ h]

/-- C6: `check_target_health` returns a status value on every path (the
embedding is a total function, so it never raises): `healthy` on a 200
response, also clearing the target's last error; `degraded` on a non-200
response, recording the status code as the error, or on a timeout;
`unreachable` on any other network failure, recording its message; and
`unknown` — with no network call, reported by the third component — for a
disabled or unknown target id. -/
theorem C6_health_check_statuses (env : NetEnv) (st : GraphReplicatorState)
    (now : Nat) (tid : String) :
    (get_target st tid = none →
      check_target_health env st now tid = (TargetStatus.unknown, st, false)) ∧
    (∀ t, get_target st tid = some t → t.enabled = false →
      check_target_health env st now tid = (TargetStatus.unknown, st, false)) ∧
    (∀ t s, get_target st tid = some t → t.enabled = true →
      env.probe tid = ProbeResult.resp s →
      (s = 200 → check_target_health env st now tid =
        (TargetStatus.healthy,
          setTarget st tid { t with last_health_check := some now, last_error := none },
          true)) ∧
      (s ≠ 200 → check_target_health env st now tid =
        (TargetStatus.degraded,
          setTarget st tid
            { t with last_health_check := some now
                     last_error := some ("Health check returned " ++ toString s) },
          true))) ∧
    (∀ t, get_target st tid = some t → t.enabled = true →
      env.probe tid = ProbeResult.timeout →
      check_target_health env st now tid =
        (TargetStatus.degraded,
          setTarget st tid { t with last_error := some "Health check timeout" }, true)) ∧
    (∀ t m, get_target st tid = some t → t.enabled = true →
      env.probe tid = ProbeResult.exc m →
      check_target_health env st now tid =
        (TargetStatus.unreachable,
          setTarget st tid { t with last_error := some m }, true)) := by
  refine ⟨?_, ?_, ?_, ?_, ?_⟩
  · intro h
    simp [check_target_health, h]
  · intro t h he
    simp [check_target_health, h, he]
  · intro t s h he hp
    constructor
    · intro hs
      subst hs
      simp [check_target_health, h, he, hp]
    · intro hs
      have hb : (s == 200) = false := by simpa using hs
      simp [check_target_health, h, he, hp, hb]
  · intro t h he hp
    simp [check_target_health, h, he, hp]
  · intro t m h he hp
    simp [check_target_health, h, he, hp]

/-- Concrete enabled target for exercising `check_target_health`. -/
def c6Target : ReplicationTarget :=
  { target_id := "t1", name := "dc1", base_url := "http://one", api_key := "k"
    enabled := true, max_concurrent := 3, metadata := [], created_at := 0
    last_health_check := none, last_error := some "stale" }

/-- Concrete disabled target for exercising `check_target_health`. -/
def c6TargetOff : ReplicationTarget :=
  { c6Target with target_id := "t2", name := "dc2", enabled := false }

/-- Concrete replicator state with one enabled and one disabled target. -/
def c6St : GraphReplicatorState :=
  { graph_id := "g", targets := [("t1", c6Target), ("t2", c6TargetOff)], logs := [] }

/-- Network environment whose probe of t1 answers 200. -/
def c6Env : NetEnv :=
  { probe := fun tid => if tid == "t1" then ProbeResult.resp 200 else ProbeResult.timeout
    upload := fun _ => UploadResult.exc "net down"
    freshOpId := fun _ => "op" }

/-- Witness for C6 at concrete inputs: unknown id and disabled target give
`unknown` with no network call; a 200 probe gives `healthy` and clears the
stale last error. -/
theorem C6_health_check_statuses_witness :
    check_target_health c6Env c6St 7 "zz" = (TargetStatus.unknown, c6St, false) ∧
    check_target_health c6Env c6St 7 "t2" = (TargetStatus.unknown, c6St, false) ∧
    (check_target_health c6Env c6St 7 "t1").1 = TargetStatus.healthy ∧
    (get_target (check_target_health c6Env c6St 7 "t1").2.1 "t1").map
      (fun t => t.last_error) = some none := by
  have h := C6_health_check_statuses c6Env c6St 7 "zz"
  have h2 := C6_health_check_statuses c6Env c6St 7 "t2"
  have h3 := ((C6_health_check_statuses c6Env c6St 7 "t1").2.2.1 c6Target 200
    (by decide) (by decide) (by decide)).1 rfl
  refine ⟨h.1 (by decide), h2.2.1 c6TargetOff (by decide) (by decide), ?_, ?_⟩
  · rw [h3]
  · rw [h3]
    decide

/-- Concrete enabled target with no recorded health check yet. -/
def c7Target : ReplicationTarget :=
  { target_id := "t1", name := "dc1", base_url := "http://one", api_key := "k"
    enabled := true, max_concurrent := 3, metadata := [], created_at := 0
    last_health_check := none, last_error := none }

/-- Concrete replicator state holding `c7Target`. -/
def c7St : GraphReplicatorState :=
  { graph_id := "g", targets := [("t1", c7Target)], logs := [] }

/-- Network environment whose health probes time out. -/
def c7EnvTimeout : NetEnv :=
  { probe := fun _ => ProbeResult.timeout
    upload := fun _ => UploadResult.exc "x"
    freshOpId := fun _ => "op" }

/-- Network environment whose health probes answer 503. -/
def c7EnvResp : NetEnv :=
  { probe := fun _ => ProbeResult.resp 503
    upload := fun _ => UploadResult.exc "x"
    freshOpId := fun _ => "op" }

/-- Counterexample to C7: probing a known, enabled target whose probe times
out does make the network call and reports `degraded`, yet the target's
`last_health_check` timestamp stays `none` — it is not updated on this
outcome (the stamp happens inside the response block only). -/
theorem C7_health_timestamp_counterexample :
    get_target c7St "t1" = some c7Target ∧
    c7Target.enabled = true ∧
    c7Target.last_health_check = none ∧
    c7EnvTimeout.probe "t1" = ProbeResult.timeout ∧
    (check_target_health c7EnvTimeout c7St 5 "t1").2.2 = true ∧
    (check_target_health c7EnvTimeout c7St 5 "t1").1 = TargetStatus.degraded ∧
    (get_target (check_target_health c7EnvTimeout c7St 5 "t1").2.1 "t1").map
      (fun t => t.last_health_check) = some none := by
  decide

/-- C7 amended: `check_target_health` on an enabled, known target updates
the target's `last_health_check` timestamp exactly when an HTTP response is
received (status 200 or not); on a timeout or any other network failure the
timestamp is left unchanged. -/
theorem C7_health_timestamp_amended (env : NetEnv) (st : GraphReplicatorState)
    (now : Nat) (tid : String) (t : ReplicationTarget)
    (h : get_target st tid = some t) (he : t.enabled = true) :
    (∀ s, env.probe tid = ProbeResult.resp s →
      (get_target (check_target_health env st now tid).2.1 tid).map
        (fun x => x.last_health_check) = some (some now)) ∧
    (env.probe tid = ProbeResult.timeout →
      (get_target (check_target_health env st now tid).2.1 tid).map
        (fun x => x.last_health_check) = some t.last_health_check) ∧
    (∀ m, env.probe tid = ProbeResult.exc m →
      (get_target (check_target_health env st now tid).2.1 tid).map
        (fun x => x.last_health_check) = some t.last_health_check) := by
  refine ⟨?_, ?_, ?_⟩
  · intro s hp
    by_cases hs : s = 200
    · subst hs
      have hred : check_target_health env st now tid =
          (TargetStatus.healthy,
            setTarget st tid { t with last_health_check := some now, last_error := none },
            true) := by
        simp [check_target_health, h, he, hp]
      rw [hred, get_target_setTarget_self st tid t _ h]
      rfl
    · have hb : (s == 200) = false := by simpa using hs
      have hred : check_target_health env st now tid =
          (TargetStatus.degraded,
            setTarget st tid
              { t with last_health_check := some now
                       last_error := some ("Health check returned " ++ toString s) },
            true) := by
        simp [check_target_health, h, he, hp, hb]
      rw [hred, get_target_setTarget_self st tid t _ h]
      rfl
  · intro hp
    have hred : check_target_health env st now tid =
        (TargetStatus.degraded,
          setTarget st tid { t with last_error := some "Health check timeout" }, true) := by
      simp [check_target_health, h, he, hp]
    rw [hred, get_target_setTarget_self st tid t _ h]
    rfl
  · intro m hp
    have hred : check_target_health env st now tid =
        (TargetStatus.unreachable,
          setTarget st tid { t with last_error := some m }, true) := by
      simp [check_target_health, h, he, hp]
    rw [hred, get_target_setTarget_self st tid t _ h]
    rfl

/-- Witness for the amended C7: a 503 response stamps the timestamp with the
probe time; a timeout leaves it at `none`. -/
theorem C7_health_timestamp_amended_witness :
    (get_target (check_target_health c7EnvResp c7St 5 "t1").2.1 "t1").map
      (fun x => x.last_health_check) = some (some 5) ∧
    (get_target (check_target_health c7EnvTimeout c7St 9 "t1").2.1 "t1").map
      (fun x => x.last_health_check) = some none := by
  have h1 := (C7_health_timestamp_amended c7EnvResp c7St 5 "t1" c7Target
    (by decide) (by decide)).1 503 (by decide)
  have h2 := (C7_health_timestamp_amended c7EnvTimeout c7St 9 "t1" c7Target
    (by decide) (by decide)).2.1 (by decide)
  exact ⟨h1, h2⟩

lemma check_target_health_logs (env : NetEnv) (st : GraphReplicatorState)
    (now : Nat) (tid : String) :
    (check_target_health env st now tid).2.1.logs = st.logs := by
  cases hf : get_target st tid with
  | none => simp [check_target_health, hf]
  | some t =>
    cases he : t.enabled with
    | false => simp [check_target_health, hf, he]
    | true =>
      cases hp : env.probe tid with
      | resp s =>
        cases hs : (s == 200) <;> simp [check_target_health, hf, he, hp, hs, setTarget]
      | timeout => simp [check_target_health, hf, he, hp, setTarget]
      | exc m => simp [check_target_health, hf, he, hp, setTarget]

lemma check_target_health_graph_id (env : NetEnv) (st : GraphReplicatorState)
    (now : Nat) (tid : String) :
    (check_target_health env st now tid).2.1.graph_id = st.graph_id := by
  cases hf : get_target st tid with
  | none => simp [check_target_health, hf]
  | some t =>
    cases he : t.enabled with
    | false => simp [check_target_health, hf, he]
    | true =>
      cases hp : env.probe tid with
      | resp s =>
        cases hs : (s == 200) <;> simp [check_target_health, hf, he, hp, hs, setTarget]
      | timeout => simp [check_target_health, hf, he, hp, setTarget]
      | exc m => simp [check_target_health, hf, he, hp, setTarget]

lemma check_target_health_get_target_ne (env : NetEnv) (st : GraphReplicatorState)
    (now : Nat) (tid k : String) (hk : k ≠ tid) :
    get_target (check_target_health env st now tid).2.1 k = get_target st k := by
  cases hf : get_target st tid with
  | none => simp [check_target_health, hf]
  | some t =>
    cases he : t.enabled with
    | false => simp [check_target_health, hf, he]
    | true =>
      cases hp : env.probe tid with
      | resp s =>
        cases hs : (s == 200) <;>
          simp [check_target_health, hf, he, hp, hs] <;>
          exact get_target_setTarget_ne st tid k _ hk
      | timeout =>
        simp [check_target_health, hf, he, hp]
        exact get_target_setTarget_ne st tid k _ hk
      | exc m =>
        simp [check_target_health, hf, he, hp]
        exact get_target_setTarget_ne st tid k _ hk

lemma replicate_to_target_appends_one (env : NetEnv) (st : GraphReplicatorState)
    (now : Nat) (t : ReplicationTarget) (bid : String) (file : List Nat) (dh : String) :
    ∃ l, (replicate_to_target env st now t bid file dh).2.logs = st.logs ++ [l] ∧
      (l.status = ReplicationStatus.validated ∨ l.status = ReplicationStatus.failed) := by
  have hlogs := check_target_health_logs env st now t.target_id
  simp only [replicate_to_target]
  cases hb : ((check_target_health env st now t.target_id).1 == TargetStatus.unreachable) with
  | true =>
    simp only [hb, if_true, hlogs]
    exact ⟨_, rfl, Or.inr rfl⟩
  | false =>
    simp only [hb, Bool.false_eq_true, if_false]
    cases hu : env.upload t.target_id with
    | resp s2 ok err =>
      cases hs2 : (s2 == 200) with
      | false =>
        simp only [hs2, Bool.not_false, if_true, hlogs]
        exact ⟨_, rfl, Or.inr rfl⟩
      | true =>
        cases hok : ok with
        | false =>
          simp only [hs2, hok, Bool.not_true, Bool.false_eq_true, if_false,
            Bool.not_false, if_true, hlogs]
          exact ⟨_, rfl, Or.inr rfl⟩
        | true =>
          simp only [hs2, hok, Bool.not_true, Bool.false_eq_true, if_false, hlogs]
          exact ⟨_, rfl, Or.inl rfl⟩
    | exc m =>
      simp only [hlogs]
      exact ⟨_, rfl, Or.inr rfl⟩

lemma replicate_to_target_result (env : NetEnv) (st : GraphReplicatorState)
    (now : Nat) (t : ReplicationTarget) (bid : String) (file : List Nat) (dh : String)
    (h : get_target st t.target_id = some t) (he : t.enabled = true) :
    (replicate_to_target env st now t bid file dh).1 =
      replicate_result (env.probe t.target_id) (env.upload t.target_id) := by
  cases hp : env.probe t.target_id with
  | resp s =>
    cases hu : env.upload t.target_id with
    | resp s2 ok err =>
      cases hs : (s == 200) <;> cases hs2 : (s2 == 200) <;> cases hok : ok <;>
        simp [replicate_to_target, check_target_health, replicate_result,
          h, he, hp, hu, hs, hs2, hok]
    | exc m2 =>
      cases hs : (s == 200) <;>
        simp [replicate_to_target, check_target_health, replicate_result,
          h, he, hp, hu, hs]
  | timeout =>
    cases hu : env.upload t.target_id with
    | resp s2 ok err =>
      cases hs2 : (s2 == 200) <;> cases hok : ok <;>
        simp [replicate_to_target, check_target_health, replicate_result,
          h, he, hp, hu, hs2, hok]
    | exc m2 =>
      simp [replicate_to_target, check_target_health, replicate_result, h, he, hp, hu]
  | exc m =>
    simp [replicate_to_target, check_target_health, replicate_result, h, he, hp]

lemma replicate_to_target_logs (env : NetEnv) (st : GraphReplicatorState)
    (now : Nat) (t : ReplicationTarget) (bid : String) (file : List Nat) (dh : String)
    (h : get_target st t.target_id = some t) (he : t.enabled = true) :
    (replicate_to_target env st now t bid file dh).2.logs =
      st.logs ++ [replicate_log env st.graph_id now t bid dh] := by
  have hlogs := check_target_health_logs env st now t.target_id
  cases hp : env.probe t.target_id with
  | resp s =>
    cases hu : env.upload t.target_id with
    | resp s2 ok err =>
      cases hs : (s == 200) <;> cases hs2 : (s2 == 200) <;> cases hok : ok <;>
        simp [replicate_to_target, check_target_health, replicate_log,
          h, he, hp, hu, hs, hs2, hok, setTarget]
    | exc m2 =>
      cases hs : (s == 200) <;>
        simp [replicate_to_target, check_target_health, replicate_log,
          h, he, hp, hu, hs, setTarget]
  | timeout =>
    cases hu : env.upload t.target_id with
    | resp s2 ok err =>
      cases hs2 : (s2 == 200) <;> cases hok : ok <;>
        simp [replicate_to_target, check_target_health, replicate_log,
          h, he, hp, hu, hs2, hok, setTarget]
    | exc m2 =>
      simp [replicate_to_target, check_target_health, replicate_log, h, he, hp, hu, setTarget]
  | exc m =>
    simp [replicate_to_target, check_target_health, replicate_log, h, he, hp, setTarget]

lemma replicate_to_target_graph_id (env : NetEnv) (st : GraphReplicatorState)
    (now : Nat) (t : ReplicationTarget) (bid : String) (file : List Nat) (dh : String) :
    (replicate_to_target env st now t bid file dh).2.graph_id = st.graph_id := by
  have hgid := check_target_health_graph_id env st now t.target_id
  simp only [replicate_to_target]
  cases hb : ((check_target_health env st now t.target_id).1 == TargetStatus.unreachable) with
  | true => simpa using hgid
  | false =>
    simp only [hb, Bool.false_eq_true, if_false]
    cases hu : env.upload t.target_id with
    | resp s2 ok err =>
      cases hs2 : (s2 == 200) <;> cases hok : ok <;> simp [hs2, hok, hgid]
    | exc m => simpa using hgid

lemma replicate_to_target_get_target_ne (env : NetEnv) (st : GraphReplicatorState)
    (now : Nat) (t : ReplicationTarget) (bid : String) (file : List Nat) (dh : String)
    (k : String) (hk : k ≠ t.target_id) :
    get_target (replicate_to_target env st now t bid file dh).2 k = get_target st k := by
  have hne := check_target_health_get_target_ne env st now t.target_id k hk
  simp only [replicate_to_target]
  cases hb : ((check_target_health env st now t.target_id).1 == TargetStatus.unreachable) with
  | true => simpa [get_target] using hne
  | false =>
    simp only [hb, Bool.false_eq_true, if_false]
    cases hu : env.upload t.target_id with
    | resp s2 ok err =>
      cases hs2 : (s2 == 200) <;> cases hok : ok <;>
        simpa [get_target, hs2, hok] using hne
    | exc m => simpa [get_target] using hne

lemma replicateEach_spec (env : NetEnv) (now : Nat) (bid : String) (file : List Nat)
    (dh : String) :
    ∀ (ts : List ReplicationTarget) (st : GraphReplicatorState),
    (ts.map (fun t => t.target_id)).Nodup →
    (∀ t ∈ ts, get_target st t.target_id = some t) →
    (∀ t ∈ ts, t.enabled = true) →
    (replicateEach env now bid file dh ts st).1 =
      ts.map (fun t => (t.target_id,
        replicate_result (env.probe t.target_id) (env.upload t.target_id))) ∧
    (replicateEach env now bid file dh ts st).2.logs =
      st.logs ++ ts.map (fun t => replicate_log env st.graph_id now t bid dh) ∧
    (replicateEach env now bid file dh ts st).2.graph_id = st.graph_id
  | [], st, _, _, _ => ⟨rfl, by simp [replicateEach], rfl⟩
  | t :: rest, st, hnd, hlk, hen => by
    rw [List.map_cons] at hnd
    have ht : get_target st t.target_id = some t := hlk t (List.mem_cons_self _ _)
    have hte : t.enabled = true := hen t (List.mem_cons_self _ _)
    have h1 := replicate_to_target_result env st now t bid file dh ht hte
    have h2 := replicate_to_target_logs env st now t bid file dh ht hte
    have h3 := replicate_to_target_graph_id env st now t bid file dh
    have hlk' : ∀ u ∈ rest,
        get_target (replicate_to_target env st now t bid file dh).2 u.target_id = some u := by
      intro u hu
      have hne : u.target_id ≠ t.target_id := by
        intro hq
        exact (List.nodup_cons.mp hnd).1 (hq ▸ List.mem_map_of_mem _ hu)
      rw [replicate_to_target_get_target_ne env st now t bid file dh _ hne]
      exact hlk u (List.mem_cons_of_mem _ hu)
    obtain ⟨ih1, ih2, ih3⟩ := replicateEach_spec env now bid file dh rest
      (replicate_to_target env st now t bid file dh).2
      (List.nodup_cons.mp hnd).2 hlk' (fun u hu => hen u (List.mem_cons_of_mem _ hu))
    refine ⟨?_, ?_, ?_⟩
    · simp only [replicateEach]
      rw [h1, ih1]
      rfl
    · simp only [replicateEach]
      rw [ih2, h2, h3]
      simp
    · simp only [replicateEach]
      rw [ih3, h3]

lemma list_targets_enabled (st : GraphReplicatorState) :
    ∀ t ∈ list_targets st true, t.enabled = true := by
  intro t ht
  unfold list_targets at ht
  simp only [if_true] at ht
  exact (List.mem_filter.mp ht).2

lemma list_targets_ids_nodup (st : GraphReplicatorState)
    (hnd : (st.targets.map Prod.fst).Nodup)
    (hkey : ∀ e ∈ st.targets, e.2.target_id = e.1) :
    ((list_targets st true).map (fun t => t.target_id)).Nodup := by
  have h1 : ((st.targets.map (fun e => e.2)).map (fun t => t.target_id)) =
      st.targets.map Prod.fst := by
    rw [List.map_map]
    exact List.map_congr_left (fun e he => hkey e he)
  have hsub : ((list_targets st true).map (fun t => t.target_id)).Sublist
      ((st.targets.map (fun e => e.2)).map (fun t => t.target_id)) := by
    unfold list_targets
    simp only [if_true]
    exact (List.filter_sublist _).map _
  rw [h1] at hsub
  exact hnd.sublist hsub

lemma list_targets_get (st : GraphReplicatorState)
    (hnd : (st.targets.map Prod.fst).Nodup)
    (hkey : ∀ e ∈ st.targets, e.2.target_id = e.1) :
    ∀ t ∈ list_targets st true, get_target st t.target_id = some t := by
  intro t ht
  unfold list_targets at ht
  simp only [if_true] at ht
  obtain ⟨hmem, _⟩ := List.mem_filter.mp ht
  obtain ⟨e, he, rfl⟩ := List.mem_map.mp hmem
  rw [hkey e he]
  unfold get_target
  rw [assoc_find?_of_mem_nodup hnd he]
  rfl

/-- C3: `replicate_snapshot` over the enabled targets returns exactly one
boolean entry per enabled target; each target's recorded outcome is a
function of that target's own probe and upload results alone, so a failure
on one target never changes the result recorded for another; and exactly
one ReplicationLog entry per enabled target is appended (success and
failure alike, the `finally` block appending on every path). -/
theorem C3_replicate_fanout (env : NetEnv) (st : GraphReplicatorState) (now : Nat)
    (bid : String) (file : List Nat) (dh : String)
    (hnd : (st.targets.map Prod.fst).Nodup)
    (hkey : ∀ e ∈ st.targets, e.2.target_id = e.1) :
    (replicate_snapshot env st now bid file dh).1 =
      (list_targets st true).map (fun t => (t.target_id,
        replicate_result (env.probe t.target_id) (env.upload t.target_id))) ∧
    ((replicate_snapshot env st now bid file dh).1).map Prod.fst =
      (list_targets st true).map (fun t => t.target_id) ∧
    (replicate_snapshot env st now bid file dh).2.logs =
      st.logs ++
        (list_targets st true).map (fun t => replicate_log env st.graph_id now t bid dh) ∧
    (replicate_snapshot env st now bid file dh).2.logs.length =
      st.logs.length + (list_targets st true).length := by
  obtain ⟨h1, h2, h3⟩ := replicateEach_spec env now bid file dh (list_targets st true) st
    (list_targets_ids_nodup st hnd hkey) (list_targets_get st hnd hkey)
    (list_targets_enabled st)
  refine ⟨h1, ?_, h2, ?_⟩
  · simp only [replicate_snapshot]
    rw [h1, List.map_map]
    rfl
  · simp only [replicate_snapshot]
    rw [h2]
    simp

/-- Network environment for the three-target scenario: t1 unreachable, t2
answering the upload with a 500, t3 succeeding. -/
def c3Env : NetEnv :=
  { probe := fun tid =>
      if tid == "t1" then ProbeResult.exc "connection refused" else ProbeResult.resp 200
    upload := fun tid =>
      if tid == "t2" then UploadResult.resp 500 false none
      else UploadResult.resp 200 true none
    freshOpId := fun tid => "op-" ++ tid }

/-- Replicator state with three enabled targets t1, t2, t3. -/
def c3St : GraphReplicatorState :=
  { graph_id := "g"
    targets :=
      [("t1", { target_id := "t1", name := "dc1", base_url := "http://one", api_key := "k"
                enabled := true, max_concurrent := 3, metadata := [], created_at := 0
                last_health_check := none, last_error := none }),
       ("t2", { target_id := "t2", name := "dc2", base_url := "http://two", api_key := "k"
                enabled := true, max_concurrent := 3, metadata := [], created_at := 0
                last_health_check := none, last_error := none }),
       ("t3", { target_id := "t3", name := "dc3", base_url := "http://three", api_key := "k"
                enabled := true, max_concurrent := 3, metadata := [], created_at := 0
                last_health_check := none, last_error := none })]
    logs := [] }

/-- Witness for C3: with t1 unreachable, t2 returning non-2xx and t3
succeeding, the result map is exactly one `false`, one `false`, one `true`,
and exactly three log entries exist after the call. -/
theorem C3_replicate_fanout_witness :
    (replicate_snapshot c3Env c3St 7 "b1" [1] "h").1 =
      [("t1", false), ("t2", false), ("t3", true)] ∧
    (replicate_snapshot c3Env c3St 7 "b1" [1] "h").2.logs.length = 3 := by
  have h := C3_replicate_fanout c3Env c3St 7 "b1" [1] "h" (by decide) (by decide)
  constructor
  · rw [h.1]
    decide
  · rw [h.2.2.2]
    decide

lemma replicateEach_statuses (env : NetEnv) (now : Nat) (bid : String) (file : List Nat)
    (dh : String) :
    ∀ (ts : List ReplicationTarget) (st : GraphReplicatorState),
    (∀ l ∈ st.logs,
      l.status = ReplicationStatus.validated ∨ l.status = ReplicationStatus.failed) →
    ∀ l ∈ (replicateEach env now bid file dh ts st).2.logs,
      l.status = ReplicationStatus.validated ∨ l.status = ReplicationStatus.failed
  | [], _, h => h
  | t :: rest, st, h => by
    simp only [replicateEach]
    refine replicateEach_statuses env now bid file dh rest _ ?_
    intro l hl
    obtain ⟨l1, hl1, hstat⟩ := replicate_to_target_appends_one env st now t bid file dh
    rw [hl1] at hl
    rcases List.mem_append.mp hl with hmem | hmem
    · exact h l hmem
    · rw [List.mem_singleton.mp hmem]
      exact hstat

lemma replicate_snapshot_statuses (env : NetEnv) (st : GraphReplicatorState) (now : Nat)
    (bid : String) (file : List Nat) (dh : String)
    (h : ∀ l ∈ st.logs,
      l.status = ReplicationStatus.validated ∨ l.status = ReplicationStatus.failed) :
    ∀ l ∈ (replicate_snapshot env st now bid file dh).2.logs,
      l.status = ReplicationStatus.validated ∨ l.status = ReplicationStatus.failed :=
  replicateEach_statuses env now bid file dh (list_targets st true) st h

/-- One call to `replicate_snapshot`: the network environment behind the
call and the call's arguments. -/
structure RepCall where
  env : NetEnv
  now : Nat
  backup_id : String
  snapshot_file : List Nat
  data_hash : String

/-- A sequence of `replicate_snapshot` calls applied in order — every
replication the replicator ever performs goes through this interface. -/
def runReplications (st : GraphReplicatorState) : List RepCall → GraphReplicatorState
  | [] => st
  | c :: rest =>
    runReplications
      (replicate_snapshot c.env st c.now c.backup_id c.snapshot_file c.data_hash).2 rest

lemma runReplications_statuses : ∀ (calls : List RepCall) (st : GraphReplicatorState),
    (∀ l ∈ st.logs,
      l.status = ReplicationStatus.validated ∨ l.status = ReplicationStatus.failed) →
    ∀ l ∈ (runReplications st calls).logs,
      l.status = ReplicationStatus.validated ∨ l.status = ReplicationStatus.failed
  | [], _, h => h
  | c :: rest, st, h =>
    runReplications_statuses rest _
      (replicate_snapshot_statuses c.env st c.now c.backup_id c.snapshot_file c.data_hash h)

lemma mem_recent_logs (st : GraphReplicatorState) (limit : Nat) (l : ReplicationLog)
    (h : l ∈ get_replication_logs st limit) : l ∈ st.logs := by
  unfold get_replication_logs at h
  have hsub :=
    List.take_sublist limit (st.logs.insertionSort (fun a b => b.started_at ≤ a.started_at))
  exact (List.perm_insertionSort _ st.logs).mem_iff.mp (hsub.mem h)

/-- C10: a successful per-target replication records its log entry with
status `validated`, never `completed`, while `get_replication_status` counts
successes among the recent logs whose status is `completed`; hence after any
sequence of replications performed solely through `replicate_snapshot`
(starting from a replicator with no logs), `successful_operations` is always
0 and `failed_operations` equals the number of `failed` entries among the 10
most recent logs. -/
theorem C10_successful_operations_zero (st0 : GraphReplicatorState) (calls : List RepCall)
    (h0 : st0.logs = []) :
    (∀ l ∈ (runReplications st0 calls).logs,
      l.status = ReplicationStatus.validated ∨ l.status = ReplicationStatus.failed) ∧
    (get_replication_status (runReplications st0 calls)).successful_operations = 0 ∧
    (get_replication_status (runReplications st0 calls)).failed_operations =
      ((get_replication_logs (runReplications st0 calls) 10).filter
        (fun l => l.status == ReplicationStatus.failed)).length := by
  have hstat := runReplications_statuses calls st0 (by rw [h0]; intro l hl; cases hl)
  refine ⟨hstat, ?_, rfl⟩
  show ((get_replication_logs (runReplications st0 calls) 10).filter
    (fun l => l.status == ReplicationStatus.completed)).length = 0
  rw [List.length_eq_zero]
  rw [List.filter_eq_nil_iff]
  intro l hl
  rcases hstat l (mem_recent_logs _ 10 l hl) with h | h <;> simp [h]

/-- Network environment for the C10 scenario: both targets probe healthy,
upload succeeds on t1 and fails on t2. -/
def c10Env : NetEnv :=
  { probe := fun _ => ProbeResult.resp 200
    upload := fun tid =>
      if tid == "t1" then UploadResult.resp 200 true none
      else UploadResult.resp 500 false none
    freshOpId := fun tid => "op-" ++ tid }

/-- Fresh replicator with two enabled targets and no logs. -/
def c10St : GraphReplicatorState :=
  { graph_id := "g"
    targets :=
      [("t1", { target_id := "t1", name := "dc1", base_url := "http://one", api_key := "k"
                enabled := true, max_concurrent := 3, metadata := [], created_at := 0
                last_health_check := none, last_error := none }),
       ("t2", { target_id := "t2", name := "dc2", base_url := "http://two", api_key := "k"
                enabled := true, max_concurrent := 3, metadata := [], created_at := 0
                last_health_check := none, last_error := none })]
    logs := [] }

/-- Witness for C10: after one `replicate_snapshot` call in which t1
succeeds and t2 fails, the status report shows zero successful operations
and one failed operation. -/
theorem C10_successful_operations_zero_witness :
    (get_replication_status
        (runReplications c10St [⟨c10Env, 3, "b", [], "h"⟩])).successful_operations = 0 ∧
    (get_replication_status
        (runReplications c10St [⟨c10Env, 3, "b", [], "h"⟩])).failed_operations = 1 := by
  have h := C10_successful_operations_zero c10St [⟨c10Env, 3, "b", [], "h"⟩] rfl
  refine ⟨h.2.1, ?_⟩
  rw [h.2.2]
  decide

/-! ## Lemmas about the recovery manager -/

lemma get_recovery_point_store_self (st : DRState) (cid : String) (cp : RecoveryPoint) :
    get_recovery_point (storeRecoveryPoint st cid cp) cid = some cp := by
  cases hany : st.recovery_points.any (fun e => e.1 == cid) with
  | true =>
    have hsome : (st.recovery_points.find? (fun e => e.1 == cid)).isSome := by
      rw [List.find?_isSome]
      obtain ⟨e, he, hbe⟩ := List.any_eq_true.mp hany
      exact ⟨e, he, hbe⟩
    simp only [storeRecoveryPoint, hany, if_true]
    unfold get_recovery_point
    rw [assoc_find?_update_self _ _ _ hsome]
    rfl
  | false =>
    have hnone : st.recovery_points.find? (fun e => e.1 == cid) = none := by
      rw [List.find?_eq_none]
      intro e he hbe
      have hc : st.recovery_points.any (fun x => x.1 == cid) = true :=
        List.any_eq_true.mpr ⟨e, he, hbe⟩
      rw [hany] at hc
      cases hc
    simp only [storeRecoveryPoint, hany, Bool.false_eq_true, if_false]
    unfold get_recovery_point
    rw [List.find?_append, hnone]
    simp

/-- C4: `create_recovery_point` over a graph set in which some graph
validates as critical raises and leaves the checkpoint store unchanged;
when it returns a checkpoint, the stored checkpoint is validated with a
validation timestamp equal to its creation timestamp. -/
theorem C4_recovery_point_gate (probe : HealthProbe) (st : DRState) (now : Nat)
    (cid : String) (gids : List String) (descr : String) (md : List (String × String)) :
    ((∃ g ∈ gids, (validate_graph probe g now).status = HealthStatus.critical) →
      (create_recovery_point probe st now cid gids descr md).2 = st ∧
      ∃ cs, (create_recovery_point probe st now cid gids descr md).1 =
        CreateRPOutcome.errCritical cs) ∧
    (∀ cp,
      (create_recovery_point probe st now cid gids descr md).1 = CreateRPOutcome.ok cp →
      get_recovery_point (create_recovery_point probe st now cid gids descr md).2 cid =
        some cp ∧
      cp.validated = true ∧
      cp.validation_timestamp = some cp.timestamp) := by
  constructor
  · rintro ⟨g, hg, hcrit⟩
    have hmem : g ∈ criticalGraphs probe gids now := by
      unfold criticalGraphs validate_all_graphs
      refine List.mem_map.mpr ⟨(g, validate_graph probe g now), ?_, rfl⟩
      exact List.mem_filter.mpr ⟨List.mem_map.mpr ⟨g, hg, rfl⟩, by simp [hcrit]⟩
    have hne : (criticalGraphs probe gids now).isEmpty = false := by
      cases hE : (criticalGraphs probe gids now).isEmpty with
      | false => rfl
      | true =>
        rw [List.isEmpty_iff] at hE
        rw [hE] at hmem
        cases hmem
    refine ⟨by simp [create_recovery_point, hne], criticalGraphs probe gids now, ?_⟩
    simp [create_recovery_point, hne]
  · intro cp hok
    cases hE : (criticalGraphs probe gids now).isEmpty with
    | false => simp [create_recovery_point, hE] at hok
    | true =>
      simp only [create_recovery_point, hE, Bool.not_true, Bool.false_eq_true, if_false,
        CreateRPOutcome.ok.injEq] at hok
      subst hok
      refine ⟨?_, rfl, rfl⟩
      simp only [create_recovery_point, hE, Bool.not_true, Bool.false_eq_true, if_false]
      exact get_recovery_point_store_self st cid _

/-- Health probe for the C4 scenario: graph A is down, everything else is
healthy. -/
def c4Probe : HealthProbe := fun g => if g == "A" then some "graph down" else none

/-- Empty recovery manager state. -/
def c4St : DRState := { recovery_points := [], failover_in_progress := false }

/-- The checkpoint produced by the successful C4 scenario. -/
def c4Point : RecoveryPoint :=
  { checkpoint_id := "c2", timestamp := 3, graphs := ["B"], validated := true
    validation_timestamp := some 3, description := "d", metadata := []
    created_by := "system" }

/-- Witness for C4: creating a recovery point over {A critical, B healthy}
fails with the critical-graphs error and leaves the store unchanged, while
creating one over {B} stores a validated checkpoint whose validation
timestamp equals its creation time. -/
theorem C4_recovery_point_gate_witness :
    (create_recovery_point c4Probe c4St 3 "c1" ["A", "B"] "d" []).2 = c4St ∧
    (∃ cs, (create_recovery_point c4Probe c4St 3 "c1" ["A", "B"] "d" []).1 =
      CreateRPOutcome.errCritical cs) ∧
    get_recovery_point (create_recovery_point c4Probe c4St 3 "c2" ["B"] "d" []).2 "c2" =
      some c4Point ∧
    c4Point.validated = true ∧
    c4Point.validation_timestamp = some c4Point.timestamp := by
  have h1 := (C4_recovery_point_gate c4Probe c4St 3 "c1" ["A", "B"] "d" []).1
    ⟨"A", by decide, by decide⟩
  have h2 := (C4_recovery_point_gate c4Probe c4St 3 "c2" ["B"] "d" []).2 c4Point (by decide)
  exact ⟨h1.1, h1.2, h2.1, h2.2.1, h2.2.2⟩

/-- C5: `initiate_failover` returns false with no state change when a
failover is already in progress or the checkpoint id is unknown, and every
call that starts with the in-progress flag clear ends with it clear again —
success, invalid-checkpoint abort, or failover exception alike — so the
coordinator is never left stuck in failover-in-progress. -/
theorem C5_failover_guard (probe : HealthProbe) (st : DRState) (now : Nat)
    (cid : String) (failover_raises : Bool) :
    (st.failover_in_progress = true →
      initiate_failover probe st now cid failover_raises = (false, st)) ∧
    (get_recovery_point st cid = none →
      initiate_failover probe st now cid failover_raises = (false, st)) ∧
    (st.failover_in_progress = false →
      (initiate_failover probe st now cid failover_raises).2.failover_in_progress = false) := by
  refine ⟨?_, ?_, ?_⟩
  · intro h
    simp [initiate_failover, h]
  · intro h
    by_cases hf : st.failover_in_progress
    · simp [initiate_failover, hf]
    · simp [initiate_failover, hf, h]
  · intro h
    cases hg : get_recovery_point st cid with
    | none => simp [initiate_failover, h, hg]
    | some cp => simp [initiate_failover, h, hg]

/-- Always-healthy probe for the C5 scenario. -/
def c5Probe : HealthProbe := fun _ => none

/-- A validated checkpoint over graph g. -/
def c5Point : RecoveryPoint :=
  { checkpoint_id := "c1", timestamp := 0, graphs := ["g"], validated := true
    validation_timestamp := some 0, description := "", metadata := []
    created_by := "system" }

/-- Recovery state with a failover already in progress. -/
def c5Busy : DRState := { recovery_points := [("c1", c5Point)], failover_in_progress := true }

/-- Idle recovery state holding checkpoint c1. -/
def c5Idle : DRState := { recovery_points := [("c1", c5Point)], failover_in_progress := false }

/-- Witness for C5: a busy coordinator and an unknown checkpoint id are both
rejected with no state change, and after a successful failover as well as
after one whose failover action raises, the in-progress flag is clear. -/
theorem C5_failover_guard_witness :
    initiate_failover c5Probe c5Busy 4 "c1" false = (false, c5Busy) ∧
    initiate_failover c5Probe c5Idle 4 "zz" false = (false, c5Idle) ∧
    (initiate_failover c5Probe c5Idle 4 "c1" true).2.failover_in_progress = false ∧
    (initiate_failover c5Probe c5Idle 4 "c1" false).2.failover_in_progress = false := by
  have h1 := (C5_failover_guard c5Probe c5Busy 4 "c1" false).1 (by decide)
  have h2 := (C5_failover_guard c5Probe c5Idle 4 "zz" false).2.1 (by decide)
  have h3 := (C5_failover_guard c5Probe c5Idle 4 "c1" true).2.2 (by decide)
  have h4 := (C5_failover_guard c5Probe c5Idle 4 "c1" false).2.2 (by decide)
  exact ⟨h1, h2, h3, h4⟩
